import Mathlib

/-
Shallow embedding of src/distributed_camera/services/cameraservice/sinkservice/
src/distributedcameramgr/surface_buffer_relay.cpp (and its header).

The relay engine owns two queue endpoints (a camera-side consumer surface and
an encoder-side producer surface), a registry of in-flight buffers keyed by the
virtual address of each buffer, a frame counter and a running flag.  External
collaborators (the surface runtime, the encoder) are modelled as oracle inputs:
each fallible external call receives a Bool telling whether it succeeds, and
every external call the engine issues is recorded in an event trace, together
with a few internal bookkeeping events that make ordering observable.

Calling a method through a null sptr is undefined behavior in the source
language; the model records such a call as an Event.nullDeref and aborts the
handler at that point, leaving the state unchanged from there on.
-/

set_option autoImplicit false

namespace SurfaceBufferRelay

/-- Error codes from distributed_camera_errno.h used by the relay.  Their
numeric values are irrelevant to the claims; only distinctness matters. -/
inductive DCErr where
  | DCAMERA_OK
  | DCAMERA_BAD_VALUE
  | DCAMERA_BAD_OPERATE
  | DCAMERA_INIT_ERR
deriving DecidableEq

/-- IMU_DATA_SIZE from the header: expected metadata blob length in bytes. -/
def IMU_DATA_SIZE : Nat := 768

/-- Model of an OHOS SurfaceBuffer: its stable identity is the virtual address
of its backing memory (GetVirAddr), plus geometry and the optional metadata
blob stored under ATTRKEY_ROI_METADATA (GetMetadata fills the byte vector and
returns GSERROR_OK exactly when the attribute is present, modelled as the
Option being some). -/
structure SurfaceBuffer where
  virAddr : Nat
  width : Int
  height : Int
  metadata : Option (List Nat)
deriving DecidableEq

/-- bufferMap_ is a std::map from void* (the virtual address) to the buffer
handle; modelled as an association list with overwrite-on-insert. -/
abbrev BufferMap := List (Nat × SurfaceBuffer)

/-- operator[] followed by assignment: insert, overwriting an existing key. -/
def mapInsert (k : Nat) (v : SurfaceBuffer) : BufferMap → BufferMap
  | [] => [(k, v)]
  | (k1, v1) :: rest =>
    if k = k1 then (k, v) :: rest else (k1, v1) :: mapInsert k v rest

/-- std::map::erase by key: removes the entry when present, no-op otherwise. -/
def mapErase (k : Nat) : BufferMap → BufferMap
  | [] => []
  | (k1, v1) :: rest =>
    if k = k1 then rest else (k1, v1) :: mapErase k rest

/-- std::map::find by key. -/
def mapLookup (k : Nat) : BufferMap → Option SurfaceBuffer
  | [] => none
  | (k1, v1) :: rest =>
    if k = k1 then some v1 else mapLookup k rest

/-- Observable events of one engine entry point: calls issued to the two
external queue endpoints, the metadata callback, and internal bookkeeping
steps whose ordering the specification talks about. -/
inductive Event where
  | acquireBuffer
  | closeFence (fd : Int)
  | imuCallbackInvoked (frameIndex : Nat) (data : List Nat)
  | attachAndFlush (id : Nat) (fence : Int)
  | releaseToCamera (id : Nat) (fence : Int)
  | requestAndDetach (id : Nat) (fence : Int)
  | unregisterListener
  | registryInsert (id : Nat)
  | registryErase (id : Nat)
  | registryClear
  | frameIndexInc
  | setRunning (b : Bool)
  | nullDeref
deriving DecidableEq

/-- The engine state: the fields of class SurfaceBufferRelay.  The three sptr
surface members are modelled by whether they are non-null; the stored
ImuDataCallback by whether one is set.  frameIndex_ is an atomic uint32, so
increments wrap modulo 2 to the 32. -/
structure RelayState where
  cameraConsumerSurface : Bool
  cameraProducerSurface : Bool
  encoderSurface : Bool
  bufferMap : BufferMap
  imuCallback : Bool
  frameIndex : Nat
  isRunning : Bool
  defaultWidth : Nat
  defaultHeight : Nat
  defaultFormat : Int
deriving DecidableEq

/-- The constructor: frameIndex_(0), isRunning_(false), all members empty. -/
def initialState : RelayState where
  cameraConsumerSurface := false
  cameraProducerSurface := false
  encoderSurface := false
  bufferMap := []
  imuCallback := false
  frameIndex := 0
  isRunning := false
  defaultWidth := 0
  defaultHeight := 0
  defaultFormat := 0

/-- Oracle outcomes of the external calls made by Init: whether
IConsumerSurface::Create returns non-null, whether RegisterConsumerListener
returns GSERROR_OK, whether GetProducer returns non-null, and whether
CreateSurfaceAsProducer returns non-null. -/
structure InitEnv where
  createConsumerOk : Bool
  registerListenerOk : Bool
  getProducerOk : Bool
  createProducerOk : Bool
deriving DecidableEq

/-- SurfaceBufferRelay::Init.  Creates the camera consumer surface (the member
is assigned the result even when Create fails, i.e. becomes null), sets the
default geometry, format and usage, registers the consumer listener, derives
the producer-side surface (that member too is assigned the result even when
CreateSurfaceAsProducer fails), and only then sets isRunning_ to true.  Each
early return leaves every member as it stands at that point. -/
def Init (s : RelayState) (env : InitEnv) (width height : Nat) (format : Int) :
    RelayState × DCErr :=
  if !env.createConsumerOk then
    ({ s with cameraConsumerSurface := false }, DCErr.DCAMERA_INIT_ERR)
  else
    let s1 := { s with
      cameraConsumerSurface := true
      defaultWidth := width
      defaultHeight := height
      defaultFormat := format }
    if !env.registerListenerOk then
      (s1, DCErr.DCAMERA_BAD_OPERATE)
    else if !env.getProducerOk then
      (s1, DCErr.DCAMERA_INIT_ERR)
    else if !env.createProducerOk then
      ({ s1 with cameraProducerSurface := false }, DCErr.DCAMERA_INIT_ERR)
    else
      ({ s1 with cameraProducerSurface := true, isRunning := true },
       DCErr.DCAMERA_OK)

/-- SurfaceBufferRelay::SetEncoderSurface.  surfaceOk models whether the
passed handle is non-null; registerOk whether RegisterReleaseListener
succeeds.  Note the member is stored before the registration attempt, so it
stays set when registration fails. -/
def SetEncoderSurface (s : RelayState) (surfaceOk registerOk : Bool) :
    RelayState × DCErr :=
  if !surfaceOk then
    (s, DCErr.DCAMERA_BAD_VALUE)
  else
    let s1 := { s with encoderSurface := true }
    if !registerOk then
      (s1, DCErr.DCAMERA_BAD_OPERATE)
    else
      (s1, DCErr.DCAMERA_OK)

/-- SurfaceBufferRelay::SetImuDataCallback: stores the callback; modelled by
whether one is set. -/
def SetImuDataCallback (s : RelayState) (callbackSet : Bool) : RelayState :=
  { s with imuCallback := callbackSet }

/-- SurfaceBufferRelay::ExtractImuData.  Returns the extracted bytes on
success; the source returns a bool and fills the out-parameter.  Success
requires a non-null buffer, GetMetadata returning GSERROR_OK (attribute
present), and the blob length equalling IMU_DATA_SIZE. -/
def ExtractImuData (buffer : Option SurfaceBuffer) : Option (List Nat) :=
  match buffer with
  | none => none
  | some b =>
    match b.metadata with
    | none => none
    | some d => if d.length = IMU_DATA_SIZE then some d else none

/-- SurfaceBufferRelay::AttachBufferToEncoder.  Guards against a null encoder
surface or buffer, then issues AttachAndFlushBuffer with fence -1 over the
full buffer extent; attachOk models whether that call returns GSERROR_OK. -/
def AttachBufferToEncoder (s : RelayState) (buffer : Option SurfaceBuffer)
    (attachOk : Bool) : DCErr × List Event :=
  match buffer with
  | none => (DCErr.DCAMERA_BAD_VALUE, [])
  | some b =>
    if !s.encoderSurface then
      (DCErr.DCAMERA_BAD_VALUE, [])
    else if attachOk then
      (DCErr.DCAMERA_OK, [Event.attachAndFlush b.virAddr (-1)])
    else
      (DCErr.DCAMERA_BAD_OPERATE, [Event.attachAndFlush b.virAddr (-1)])

/-- Oracle outcome of IConsumerSurface::AcquireBuffer: whether it returns
GSERROR_OK, the buffer it yields (possibly null), and the fence. -/
structure AcquireReply where
  ok : Bool
  buffer : Option SurfaceBuffer
  fence : Int
deriving DecidableEq

/-- SurfaceBufferRelay::RelayBufferFromCamera, one forward cycle: guard on
both surfaces being non-null, acquire from the camera consumer surface, close
a non-negative fence, extract IMU metadata and invoke the callback with the
current frame index when extraction succeeds and a callback is set, then
attach-and-flush to the encoder; on attach failure release the buffer straight
back to the camera with fence -1, on success record the buffer in the registry
and increment the frame index. -/
def RelayBufferFromCamera (s : RelayState) (acq : AcquireReply)
    (attachOk : Bool) : RelayState × List Event :=
  if !s.cameraConsumerSurface || !s.encoderSurface then
    (s, [])
  else
    match acq.ok, acq.buffer with
    | true, some b =>
      let ev1 := Event.acquireBuffer ::
        (if 0 ≤ acq.fence then [Event.closeFence acq.fence] else [])
      let ev2 :=
        match ExtractImuData (some b) with
        | some d =>
          if s.imuCallback then [Event.imuCallbackInvoked s.frameIndex d]
          else []
        | none => []
      let atr := AttachBufferToEncoder s (some b) attachOk
      if atr.1 ≠ DCErr.DCAMERA_OK then
        (s, ev1 ++ ev2 ++ atr.2 ++ [Event.releaseToCamera b.virAddr (-1)])
      else
        ({ s with
            bufferMap := mapInsert b.virAddr b s.bufferMap
            frameIndex := (s.frameIndex + 1) % 4294967296 },
         ev1 ++ ev2 ++ atr.2 ++
           [Event.registryInsert b.virAddr, Event.frameIndexInc])
    | _, _ => (s, [Event.acquireBuffer])

/-- SurfaceBufferRelay::OnBufferAvailable: returns immediately when the
running flag is false, otherwise runs one forward cycle. -/
def OnBufferAvailable (s : RelayState) (acq : AcquireReply) (attachOk : Bool) :
    RelayState × List Event :=
  if !s.isRunning then (s, []) else RelayBufferFromCamera s acq attachOk

/-- SurfaceBufferRelay::ReturnBufferToCamera: guards against a null camera
consumer surface or buffer, then issues ReleaseBuffer with the given fence;
releaseOk models whether that call returns GSERROR_OK. -/
def ReturnBufferToCamera (s : RelayState) (buffer : Option SurfaceBuffer)
    (fence : Int) (releaseOk : Bool) : DCErr × List Event :=
  match buffer with
  | none => (DCErr.DCAMERA_BAD_VALUE, [])
  | some b =>
    if !s.cameraConsumerSurface then
      (DCErr.DCAMERA_BAD_VALUE, [])
    else if releaseOk then
      (DCErr.DCAMERA_OK, [Event.releaseToCamera b.virAddr fence])
    else
      (DCErr.DCAMERA_BAD_OPERATE, [Event.releaseToCamera b.virAddr fence])

/-- SurfaceBufferRelay::OnEncoderReleaseBuffer, the release path: a null
buffer is logged and ignored; otherwise the handler calls
RequestAndDetachBuffer on encoderSurface_ with no null check (a null
dereference when that member has been dropped, recorded as Event.nullDeref
and aborting the handler), then returns the buffer to the camera with the
given fence, then erases the buffer identity from the registry regardless of
the two call outcomes.  detachOk and releaseOk model the outcomes of the two
external calls; both only affect logging and the ignored return code. -/
def OnEncoderReleaseBuffer (s : RelayState) (buffer : Option SurfaceBuffer)
    (fence : Int) (detachOk releaseOk : Bool) : RelayState × List Event :=
  match buffer with
  | none => (s, [])
  | some b =>
    if !s.encoderSurface then
      (s, [Event.nullDeref])
    else
      let ev1 := [Event.requestAndDetach b.virAddr fence]
      let ret := ReturnBufferToCamera s (some b) fence releaseOk
      ({ s with bufferMap := mapErase b.virAddr s.bufferMap },
       ev1 ++ ret.2 ++ [Event.registryErase b.virAddr])

/-- SurfaceBufferRelay::Release: sets the running flag false first, then
unregisters the consumer listener and drops the camera consumer surface when
it is held, drops the producer and encoder surface references, and clears the
registry under its lock. -/
def Release (s : RelayState) : RelayState × List Event :=
  ({ s with
      isRunning := false
      cameraConsumerSurface := false
      cameraProducerSurface := false
      encoderSurface := false
      bufferMap := [] },
   Event.setRunning false ::
     ((if s.cameraConsumerSurface then [Event.unregisterListener] else []) ++
       [Event.registryClear]))

/-- Predicate selecting metadata-callback invocations in a trace. -/
def isImuEvent : Event → Bool
  | Event.imuCallbackInvoked _ _ => true
  | _ => false

/-- The metadata-callback invocations of a trace, in order. -/
def imuEvents (l : List Event) : List Event := l.filter isImuEvent

/-- The metadata-callback invocations one forward cycle produces, as a
function of the state and the acquire outcome only (the attach outcome plays
no part, because the source invokes the callback before the attach step). -/
def cycleImuEvents (s : RelayState) (acq : AcquireReply) : List Event :=
  if !s.cameraConsumerSurface || !s.encoderSurface then []
  else
    match acq.ok, acq.buffer with
    | true, some b =>
      match ExtractImuData (some b) with
      | some d =>
        if s.imuCallback then [Event.imuCallbackInvoked s.frameIndex d]
        else []
      | none => []
    | _, _ => []

/-- An Init environment in which every external sub-step succeeds. -/
def allOkEnv : InitEnv where
  createConsumerOk := true
  registerListenerOk := true
  getProducerOk := true
  createProducerOk := true

/-- The engine state after a fully successful Init, before the downstream
endpoint is bound. -/
def postInitState : RelayState := (Init initialState allOkEnv 1920 1080 3).1

/-- The engine state after a fully successful Init followed by a fully
successful SetEncoderSurface, used as a concrete ready-to-relay state. -/
def readyState : RelayState :=
  (SetEncoderSurface postInitState true true).1

/-- A concrete buffer with no metadata attribute, identity 42. -/
def sampleBuffer : SurfaceBuffer where
  virAddr := 42
  width := 1920
  height := 1080
  metadata := none

/-- A concrete 768-byte metadata blob. -/
def imuBytes : List Nat := List.replicate 768 0

/-- A concrete buffer carrying a well-formed 768-byte metadata blob,
identity 7. -/
def imuBuffer : SurfaceBuffer where
  virAddr := 7
  width := 1920
  height := 1080
  metadata := some imuBytes

/-- readyState with a metadata callback installed. -/
def cbReadyState : RelayState := SetImuDataCallback readyState true

/-- A successful acquire yielding imuBuffer with no fence. -/
def imuAcquire : AcquireReply where
  ok := true
  buffer := some imuBuffer
  fence := -1

/-- The engine state after Release has run on the ready state. -/
def releasedState : RelayState := (Release readyState).1

/-- An Init environment in which only listener registration fails. -/
def c4Env : InitEnv where
  createConsumerOk := true
  registerListenerOk := false
  getProducerOk := true
  createProducerOk := true

theorem mapErase_absent (k : Nat) (m : BufferMap)
    (h : mapLookup k m = none) : mapErase k m = m := by
  induction m with
  | nil => rfl
  | cons hd tl ih =>
    obtain ⟨k1, v1⟩ := hd
    by_cases hk : k = k1
    · simp [mapLookup, hk] at h
    · simp only [mapLookup, hk, if_false, if_neg hk] at h
      simp [mapErase, hk, ih h]

theorem imuEvents_append (l1 l2 : List Event) :
    imuEvents (l1 ++ l2) = imuEvents l1 ++ imuEvents l2 := by
  simp [imuEvents, List.filter_append]

theorem imuEvents_eq_cycle (s : RelayState) (acq : AcquireReply)
    (attachOk : Bool) :
    imuEvents (RelayBufferFromCamera s acq attachOk).2 = cycleImuEvents s acq := by
  obtain ⟨aok, abuf, afence⟩ := acq
  unfold RelayBufferFromCamera cycleImuEvents
  cases hcam : s.cameraConsumerSurface <;> cases henc : s.encoderSurface
  · simp [imuEvents]
  · simp [imuEvents]
  · simp [imuEvents]
  · cases aok with
    | false => simp [imuEvents, isImuEvent]
    | true =>
      cases abuf with
      | none => simp [imuEvents, isImuEvent]
      | some b =>
        rcases hx : ExtractImuData (some b) with _ | d <;>
          cases hcb : s.imuCallback <;>
            cases attachOk <;>
              simp [hx, hcb, henc, AttachBufferToEncoder,
                imuEvents, isImuEvent]

theorem cycleImuEvents_length_le_one (s : RelayState) (acq : AcquireReply) :
    (cycleImuEvents s acq).length ≤ 1 := by
  obtain ⟨aok, abuf, afence⟩ := acq
  unfold cycleImuEvents
  cases hcam : s.cameraConsumerSurface <;> cases henc : s.encoderSurface
  · simp
  · simp
  · simp
  · cases aok with
    | false => simp
    | true =>
      cases abuf with
      | none => simp
      | some b =>
        rcases hx : ExtractImuData (some b) with _ | d <;>
          cases hcb : s.imuCallback <;> simp [hx, hcb]

/-- Claim C1 counterexample: with an empty registry, a release callback
carrying a non-null buffer whose identity (42) was never registered still
issues a return-to-upstream call for that very buffer, refuting the part of
the claim that says no return-to-upstream call is made for it. -/
theorem c1_counterexample :
    readyState.bufferMap = [] ∧
    Event.releaseToCamera 42 0 ∈
      (OnEncoderReleaseBuffer readyState (some sampleBuffer) 0 true true).2 := by
  decide

/-- Claim C1 amended: a release callback delivered with a non-null buffer
whose identity is absent from the registry, while both endpoints are still
held, is recoverable: the engine does not crash and the engine state — in
particular the registry — is unchanged (erasing an absent key is a no-op),
but the engine still detaches that buffer from the downstream endpoint and
returns that same buffer to the upstream endpoint; it never consults the
registry before doing so. -/
theorem c1_unregistered_release (s : RelayState) (b : SurfaceBuffer)
    (fence : Int) (detachOk releaseOk : Bool)
    (henc : s.encoderSurface = true)
    (hcam : s.cameraConsumerSurface = true)
    (habs : mapLookup b.virAddr s.bufferMap = none) :
    (OnEncoderReleaseBuffer s (some b) fence detachOk releaseOk).1 = s ∧
    Event.nullDeref ∉
      (OnEncoderReleaseBuffer s (some b) fence detachOk releaseOk).2 ∧
    Event.requestAndDetach b.virAddr fence ∈
      (OnEncoderReleaseBuffer s (some b) fence detachOk releaseOk).2 ∧
    Event.releaseToCamera b.virAddr fence ∈
      (OnEncoderReleaseBuffer s (some b) fence detachOk releaseOk).2 := by
  obtain ⟨cam, prod, enc, bm, cb, fi, run, dw, dh, df⟩ := s
  simp only at henc hcam habs
  subst henc
  subst hcam
  have hmap : mapErase b.virAddr bm = bm := mapErase_absent b.virAddr bm habs
  cases releaseOk <;>
    simp [OnEncoderReleaseBuffer, ReturnBufferToCamera, hmap]

/-- Witness for c1_unregistered_release at the concrete ready state and the
never-registered buffer 42. -/
theorem c1_unregistered_release_witness :
    (readyState.encoderSurface = true ∧
     readyState.cameraConsumerSurface = true ∧
     mapLookup sampleBuffer.virAddr readyState.bufferMap = none) ∧
    ((OnEncoderReleaseBuffer readyState (some sampleBuffer) 0 true true).1 =
        readyState ∧
     Event.nullDeref ∉
       (OnEncoderReleaseBuffer readyState (some sampleBuffer) 0 true true).2 ∧
     Event.requestAndDetach sampleBuffer.virAddr 0 ∈
       (OnEncoderReleaseBuffer readyState (some sampleBuffer) 0 true true).2 ∧
     Event.releaseToCamera sampleBuffer.virAddr 0 ∈
       (OnEncoderReleaseBuffer readyState (some sampleBuffer) 0 true true).2) :=
  ⟨⟨by decide, by decide, by decide⟩,
   c1_unregistered_release readyState sampleBuffer 0 true true
     (by decide) (by decide) (by decide)⟩

/-- Claim C2 (code bug evidence): after Release, a buffer-available
notification is a no-op, but a release callback with a non-null buffer
dereferences the dropped (null) downstream endpoint — recorded as
Event.nullDeref, undefined behavior in the source — instead of being a
no-op as the claim states. -/
theorem c2_post_teardown_crash :
    (∀ acq : AcquireReply, ∀ attachOk : Bool,
        OnBufferAvailable releasedState acq attachOk = (releasedState, [])) ∧
    OnEncoderReleaseBuffer releasedState (some sampleBuffer) 0 true true =
      (releasedState, [Event.nullDeref]) := by
  refine ⟨?_, by decide⟩
  intro acq attachOk
  have h : releasedState.isRunning = false := by decide
  simp [OnBufferAvailable, h]

set_option maxRecDepth 20000 in
/-- Claim C3 counterexample: a cycle whose attach-and-submit fails (the
buffer comes back to the camera within the cycle and the frame index stays
0) nevertheless invokes the metadata callback, because the source invokes it
before the forward step. -/
theorem c3_counterexample :
    Event.imuCallbackInvoked 0 imuBytes ∈
      (RelayBufferFromCamera cbReadyState imuAcquire false).2 ∧
    Event.releaseToCamera 7 (-1) ∈
      (RelayBufferFromCamera cbReadyState imuAcquire false).2 ∧
    (RelayBufferFromCamera cbReadyState imuAcquire false).1.frameIndex = 0 := by
  decide

/-- Claim C3 amended: in every forward cycle the metadata callback is invoked
at most once, and the invocations are a function of the state and the acquire
outcome alone — identical whether the attach-and-submit succeeds or fails —
because the source invokes the callback before the forward step. -/
theorem c3_callback_at_most_once (s : RelayState) (acq : AcquireReply)
    (attachOk : Bool) :
    (imuEvents (RelayBufferFromCamera s acq attachOk).2).length ≤ 1 ∧
    imuEvents (RelayBufferFromCamera s acq attachOk).2 =
      cycleImuEvents s acq := by
  refine ⟨?_, imuEvents_eq_cycle s acq attachOk⟩
  rw [imuEvents_eq_cycle]
  exact cycleImuEvents_length_le_one s acq

/-- Claim C4 counterexample: when only listener registration fails, Init
returns DCAMERA_BAD_OPERATE — the operation-failure code, not the
initialization-error code — and the partially-created consumer endpoint
remains held by the engine rather than being released; the running flag does
stay false. -/
theorem c4_counterexample :
    (Init initialState c4Env 1920 1080 3).2 = DCErr.DCAMERA_BAD_OPERATE ∧
    (Init initialState c4Env 1920 1080 3).2 ≠ DCErr.DCAMERA_INIT_ERR ∧
    (Init initialState c4Env 1920 1080 3).1.cameraConsumerSurface = true ∧
    (Init initialState c4Env 1920 1080 3).1.isRunning = false := by
  decide

/-- Claim C4 amended: starting from a non-running engine, Init sets the
running flag true exactly when every sub-step succeeds, and on any sub-step
failure the flag stays false; the failing branches are each pinned: consumer
endpoint creation failure returns DCAMERA_INIT_ERR (the member holds the null
result, nothing created yet), listener-registration failure returns
DCAMERA_BAD_OPERATE, producer-handle derivation failure (GetProducer or
CreateSurfaceAsProducer) returns DCAMERA_INIT_ERR — and on every failure
after the consumer endpoint was created, that partially-created endpoint
remains held by the engine rather than being released. -/
theorem c4_init_running_flag (s : RelayState) (env : InitEnv)
    (width height : Nat) (format : Int) (hrun : s.isRunning = false) :
    ((Init s env width height format).2 = DCErr.DCAMERA_OK ↔
      (env.createConsumerOk = true ∧ env.registerListenerOk = true ∧
       env.getProducerOk = true ∧ env.createProducerOk = true)) ∧
    ((Init s env width height format).1.isRunning = true ↔
      (Init s env width height format).2 = DCErr.DCAMERA_OK) ∧
    (env.createConsumerOk = false →
      (Init s env width height format).2 = DCErr.DCAMERA_INIT_ERR ∧
      (Init s env width height format).1.cameraConsumerSurface = false) ∧
    (env.createConsumerOk = true → env.registerListenerOk = false →
      (Init s env width height format).2 = DCErr.DCAMERA_BAD_OPERATE ∧
      (Init s env width height format).1.cameraConsumerSurface = true) ∧
    (env.createConsumerOk = true → env.registerListenerOk = true →
      env.getProducerOk = false →
      (Init s env width height format).2 = DCErr.DCAMERA_INIT_ERR ∧
      (Init s env width height format).1.cameraConsumerSurface = true) ∧
    (env.createConsumerOk = true → env.registerListenerOk = true →
      env.getProducerOk = true → env.createProducerOk = false →
      (Init s env width height format).2 = DCErr.DCAMERA_INIT_ERR ∧
      (Init s env width height format).1.cameraConsumerSurface = true ∧
      (Init s env width height format).1.cameraProducerSurface = false) := by
  obtain ⟨c, r, g, p⟩ := env
  cases c <;> cases r <;> cases g <;> cases p <;> simp [Init, hrun]

/-- Witness for c4_init_running_flag at the initial state and the all-success
environment. -/
theorem c4_init_running_flag_witness :
    initialState.isRunning = false ∧
    (((Init initialState allOkEnv 1920 1080 3).2 = DCErr.DCAMERA_OK ↔
       (allOkEnv.createConsumerOk = true ∧ allOkEnv.registerListenerOk = true ∧
        allOkEnv.getProducerOk = true ∧ allOkEnv.createProducerOk = true)) ∧
     ((Init initialState allOkEnv 1920 1080 3).1.isRunning = true ↔
       (Init initialState allOkEnv 1920 1080 3).2 = DCErr.DCAMERA_OK) ∧
     (allOkEnv.createConsumerOk = false →
       (Init initialState allOkEnv 1920 1080 3).2 = DCErr.DCAMERA_INIT_ERR ∧
       (Init initialState allOkEnv 1920 1080 3).1.cameraConsumerSurface =
         false) ∧
     (allOkEnv.createConsumerOk = true → allOkEnv.registerListenerOk = false →
       (Init initialState allOkEnv 1920 1080 3).2 = DCErr.DCAMERA_BAD_OPERATE ∧
       (Init initialState allOkEnv 1920 1080 3).1.cameraConsumerSurface =
         true) ∧
     (allOkEnv.createConsumerOk = true → allOkEnv.registerListenerOk = true →
       allOkEnv.getProducerOk = false →
       (Init initialState allOkEnv 1920 1080 3).2 = DCErr.DCAMERA_INIT_ERR ∧
       (Init initialState allOkEnv 1920 1080 3).1.cameraConsumerSurface =
         true) ∧
     (allOkEnv.createConsumerOk = true → allOkEnv.registerListenerOk = true →
       allOkEnv.getProducerOk = true → allOkEnv.createProducerOk = false →
       (Init initialState allOkEnv 1920 1080 3).2 = DCErr.DCAMERA_INIT_ERR ∧
       (Init initialState allOkEnv 1920 1080 3).1.cameraConsumerSurface =
         true ∧
       (Init initialState allOkEnv 1920 1080 3).1.cameraProducerSurface =
         false)) :=
  ⟨by decide, c4_init_running_flag initialState allOkEnv 1920 1080 3 (by decide)⟩

/-- Claim C5: when both endpoints are held and acquire yields a buffer, a
forward cycle whose attach-and-submit fails releases that buffer straight
back to the upstream endpoint with fence -1 within the same cycle and leaves
the engine state — in particular the registry and the frame index —
unchanged. -/
theorem c5_forward_failure_symmetry (s : RelayState) (b : SurfaceBuffer)
    (fence : Int)
    (hcam : s.cameraConsumerSurface = true) (henc : s.encoderSurface = true) :
    (RelayBufferFromCamera s ⟨true, some b, fence⟩ false).1 = s ∧
    Event.releaseToCamera b.virAddr (-1) ∈
      (RelayBufferFromCamera s ⟨true, some b, fence⟩ false).2 ∧
    (RelayBufferFromCamera s ⟨true, some b, fence⟩ false).1.frameIndex =
      s.frameIndex ∧
    (RelayBufferFromCamera s ⟨true, some b, fence⟩ false).1.bufferMap =
      s.bufferMap := by
  simp [RelayBufferFromCamera, hcam, henc, AttachBufferToEncoder]

/-- Witness for c5_forward_failure_symmetry at the ready state and buffer
42. -/
theorem c5_forward_failure_symmetry_witness :
    (readyState.cameraConsumerSurface = true ∧
     readyState.encoderSurface = true) ∧
    ((RelayBufferFromCamera readyState ⟨true, some sampleBuffer, 0⟩ false).1 =
        readyState ∧
     Event.releaseToCamera sampleBuffer.virAddr (-1) ∈
       (RelayBufferFromCamera readyState ⟨true, some sampleBuffer, 0⟩ false).2 ∧
     (RelayBufferFromCamera readyState
        ⟨true, some sampleBuffer, 0⟩ false).1.frameIndex =
       readyState.frameIndex ∧
     (RelayBufferFromCamera readyState
        ⟨true, some sampleBuffer, 0⟩ false).1.bufferMap =
       readyState.bufferMap) :=
  ⟨⟨by decide, by decide⟩,
   c5_forward_failure_symmetry readyState sampleBuffer 0
     (by decide) (by decide)⟩

/-- Claim C6: with both endpoints held and a metadata callback set, for an
acquired buffer the metadata callback fires exactly when the metadata
attribute is present and the blob length is exactly IMU_DATA_SIZE (768);
every invocation carries the current, not yet advanced, frame index and the
extracted bytes; and an absent or wrong-length attribute does not fail the
cycle — the attach step is still issued. -/
theorem c6_metadata_gating (s : RelayState) (b : SurfaceBuffer) (fence : Int)
    (attachOk : Bool)
    (hcam : s.cameraConsumerSurface = true) (henc : s.encoderSurface = true)
    (hcb : s.imuCallback = true) :
    ((∃ d, Event.imuCallbackInvoked s.frameIndex d ∈
        (RelayBufferFromCamera s ⟨true, some b, fence⟩ attachOk).2) ↔
      (∃ d, b.metadata = some d ∧ d.length = IMU_DATA_SIZE)) ∧
    (∀ i d, Event.imuCallbackInvoked i d ∈
        (RelayBufferFromCamera s ⟨true, some b, fence⟩ attachOk).2 →
      i = s.frameIndex ∧ b.metadata = some d ∧ d.length = IMU_DATA_SIZE) ∧
    Event.attachAndFlush b.virAddr (-1) ∈
      (RelayBufferFromCamera s ⟨true, some b, fence⟩ attachOk).2 := by
  rcases hmd : b.metadata with _ | d0
  · cases attachOk <;>
      simp [RelayBufferFromCamera, hcam, henc, hcb, AttachBufferToEncoder,
        ExtractImuData, hmd]
  · by_cases hlen : d0.length = IMU_DATA_SIZE <;>
      cases attachOk <;>
        simp [RelayBufferFromCamera, hcam, henc, hcb, AttachBufferToEncoder,
          ExtractImuData, hmd, hlen]

/-- Witness for c6_metadata_gating at the callback-enabled ready state and
the buffer carrying a 768-byte blob. -/
theorem c6_metadata_gating_witness :
    (cbReadyState.cameraConsumerSurface = true ∧
     cbReadyState.encoderSurface = true ∧
     cbReadyState.imuCallback = true) ∧
    (((∃ d, Event.imuCallbackInvoked cbReadyState.frameIndex d ∈
        (RelayBufferFromCamera cbReadyState
          ⟨true, some imuBuffer, -1⟩ true).2) ↔
      (∃ d, imuBuffer.metadata = some d ∧ d.length = IMU_DATA_SIZE)) ∧
     (∀ i d, Event.imuCallbackInvoked i d ∈
        (RelayBufferFromCamera cbReadyState
          ⟨true, some imuBuffer, -1⟩ true).2 →
      i = cbReadyState.frameIndex ∧ imuBuffer.metadata = some d ∧
        d.length = IMU_DATA_SIZE) ∧
     Event.attachAndFlush imuBuffer.virAddr (-1) ∈
       (RelayBufferFromCamera cbReadyState ⟨true, some imuBuffer, -1⟩ true).2) :=
  ⟨⟨by decide, by decide, by decide⟩,
   c6_metadata_gating cbReadyState imuBuffer (-1) true
     (by decide) (by decide) (by decide)⟩

/-- Claim C7: when both endpoints are held and acquire yields a buffer, a
forward cycle whose attach-and-submit succeeds inserts the pair of buffer
identity and handle into the registry and then increments the frame index
(modulo 2 to the 32); any metadata-callback invocation in the cycle carries
the pre-cycle frame index, so the first successfully forwarded frame sees
index 0 and leaves the counter at 1. -/
theorem c7_forward_success (s : RelayState) (b : SurfaceBuffer) (fence : Int)
    (hcam : s.cameraConsumerSurface = true) (henc : s.encoderSurface = true) :
    (RelayBufferFromCamera s ⟨true, some b, fence⟩ true).1.bufferMap =
      mapInsert b.virAddr b s.bufferMap ∧
    (RelayBufferFromCamera s ⟨true, some b, fence⟩ true).1.frameIndex =
      (s.frameIndex + 1) % 4294967296 ∧
    (s.frameIndex = 0 →
      (RelayBufferFromCamera s ⟨true, some b, fence⟩ true).1.frameIndex = 1) ∧
    (∀ i d, Event.imuCallbackInvoked i d ∈
        (RelayBufferFromCamera s ⟨true, some b, fence⟩ true).2 →
      i = s.frameIndex) ∧
    (∃ pre, (RelayBufferFromCamera s ⟨true, some b, fence⟩ true).2 =
      pre ++ [Event.registryInsert b.virAddr, Event.frameIndexInc]) := by
  refine ⟨?_, ?_, ?_, ?_, ?_⟩
  · simp [RelayBufferFromCamera, hcam, henc, AttachBufferToEncoder]
  · simp [RelayBufferFromCamera, hcam, henc, AttachBufferToEncoder]
  · intro h0
    simp [RelayBufferFromCamera, hcam, henc, AttachBufferToEncoder, h0]
  · intro i d hmem
    rcases hmd : ExtractImuData (some b) with _ | d1 <;>
      cases hcb : s.imuCallback <;>
        simp [RelayBufferFromCamera, hcam, henc, AttachBufferToEncoder,
          hmd, hcb] at hmem <;> simp_all
  · rcases hmd : ExtractImuData (some b) with _ | d1
    · refine ⟨Event.acquireBuffer ::
        ((if 0 ≤ fence then [Event.closeFence fence] else []) ++
          [Event.attachAndFlush b.virAddr (-1)]), ?_⟩
      simp [RelayBufferFromCamera, hcam, henc, AttachBufferToEncoder, hmd]
    · cases hcb : s.imuCallback
      · refine ⟨Event.acquireBuffer ::
          ((if 0 ≤ fence then [Event.closeFence fence] else []) ++
            [Event.attachAndFlush b.virAddr (-1)]), ?_⟩
        simp [RelayBufferFromCamera, hcam, henc, AttachBufferToEncoder,
          hmd, hcb]
      · refine ⟨Event.acquireBuffer ::
          ((if 0 ≤ fence then [Event.closeFence fence] else []) ++
            [Event.imuCallbackInvoked s.frameIndex d1,
             Event.attachAndFlush b.virAddr (-1)]), ?_⟩
        simp [RelayBufferFromCamera, hcam, henc, AttachBufferToEncoder,
          hmd, hcb]

/-- Witness for c7_forward_success at the callback-enabled ready state (frame
index 0) and the buffer carrying a 768-byte blob. -/
theorem c7_forward_success_witness :
    (cbReadyState.cameraConsumerSurface = true ∧
     cbReadyState.encoderSurface = true) ∧
    ((RelayBufferFromCamera cbReadyState
        ⟨true, some imuBuffer, -1⟩ true).1.bufferMap =
      mapInsert imuBuffer.virAddr imuBuffer cbReadyState.bufferMap ∧
     (RelayBufferFromCamera cbReadyState
        ⟨true, some imuBuffer, -1⟩ true).1.frameIndex =
      (cbReadyState.frameIndex + 1) % 4294967296 ∧
     (cbReadyState.frameIndex = 0 →
       (RelayBufferFromCamera cbReadyState
          ⟨true, some imuBuffer, -1⟩ true).1.frameIndex = 1) ∧
     (∀ i d, Event.imuCallbackInvoked i d ∈
        (RelayBufferFromCamera cbReadyState ⟨true, some imuBuffer, -1⟩ true).2 →
       i = cbReadyState.frameIndex) ∧
     (∃ pre, (RelayBufferFromCamera cbReadyState
        ⟨true, some imuBuffer, -1⟩ true).2 =
       pre ++ [Event.registryInsert imuBuffer.virAddr,
         Event.frameIndexInc])) :=
  ⟨⟨by decide, by decide⟩,
   c7_forward_success cbReadyState imuBuffer (-1) (by decide) (by decide)⟩

/-- Claim C8: with both endpoints held, a forward cycle in which the acquire
call fails or yields a null buffer aborts silently: the only external call is
the acquire itself, the state — registry and frame index included — is
unchanged, no metadata callback fires, and nothing is reported to the caller
(the handler returns void in the source). -/
theorem c8_acquire_failure_silent (s : RelayState) (acq : AcquireReply)
    (attachOk : Bool)
    (hcam : s.cameraConsumerSurface = true) (henc : s.encoderSurface = true)
    (hfail : acq.ok = false ∨ acq.buffer = none) :
    RelayBufferFromCamera s acq attachOk = (s, [Event.acquireBuffer]) := by
  obtain ⟨aok, abuf, afence⟩ := acq
  rcases hfail with h | h
  · subst h
    simp [RelayBufferFromCamera, hcam, henc]
  · subst h
    cases aok <;> simp [RelayBufferFromCamera, hcam, henc]

/-- Witness for c8_acquire_failure_silent at the ready state and a failing
acquire. -/
theorem c8_acquire_failure_silent_witness :
    (readyState.cameraConsumerSurface = true ∧
     readyState.encoderSurface = true ∧
     ((⟨false, none, -1⟩ : AcquireReply).ok = false ∨
      (⟨false, none, -1⟩ : AcquireReply).buffer = none)) ∧
    RelayBufferFromCamera readyState ⟨false, none, -1⟩ true =
      (readyState, [Event.acquireBuffer]) :=
  ⟨⟨by decide, by decide, by decide⟩,
   c8_acquire_failure_silent readyState ⟨false, none, -1⟩ true
     (by decide) (by decide) (by decide)⟩

/-- Claim C9: Release is idempotent — a second call leaves the state produced
by the first call unchanged; each run sets the running flag false as its
first step, unregisters the upstream listener when the upstream endpoint is
held, drops both endpoint references, and clears the registry. -/
theorem c9_release_idempotent (s : RelayState)
    (hcam : s.cameraConsumerSurface = true) :
    (Release (Release s).1).1 = (Release s).1 ∧
    (Release s).1.isRunning = false ∧
    (Release s).1.cameraConsumerSurface = false ∧
    (Release s).1.cameraProducerSurface = false ∧
    (Release s).1.encoderSurface = false ∧
    (Release s).1.bufferMap = [] ∧
    (Release s).2.head? = some (Event.setRunning false) ∧
    Event.unregisterListener ∈ (Release s).2 ∧
    Event.registryClear ∈ (Release s).2 := by
  simp [Release, hcam]

/-- Witness for c9_release_idempotent at the ready state. -/
theorem c9_release_idempotent_witness :
    readyState.cameraConsumerSurface = true ∧
    ((Release (Release readyState).1).1 = (Release readyState).1 ∧
     (Release readyState).1.isRunning = false ∧
     (Release readyState).1.cameraConsumerSurface = false ∧
     (Release readyState).1.cameraProducerSurface = false ∧
     (Release readyState).1.encoderSurface = false ∧
     (Release readyState).1.bufferMap = [] ∧
     (Release readyState).2.head? = some (Event.setRunning false) ∧
     Event.unregisterListener ∈ (Release readyState).2 ∧
     Event.registryClear ∈ (Release readyState).2) :=
  ⟨by decide, c9_release_idempotent readyState (by decide)⟩

/-- Claim C10: a buffer-available notification delivered while the running
flag is true but the downstream endpoint is not yet bound is a no-op stopped
by the null check on the downstream endpoint: no acquire call is issued and
the state — registry and frame index included — is unchanged; and the state
reached by a fully successful Init is exactly such a state (running, upstream
endpoint held, downstream endpoint absent). -/
theorem c10_notification_before_bind (s : RelayState) (acq : AcquireReply)
    (attachOk : Bool)
    (hrun : s.isRunning = true) (henc : s.encoderSurface = false) :
    OnBufferAvailable s acq attachOk = (s, []) ∧
    postInitState.isRunning = true ∧
    postInitState.encoderSurface = false ∧
    postInitState.cameraConsumerSurface = true := by
  refine ⟨?_, by decide, by decide, by decide⟩
  simp [OnBufferAvailable, RelayBufferFromCamera, hrun, henc]

/-- Witness for c10_notification_before_bind at the post-Init state. -/
theorem c10_notification_before_bind_witness :
    (postInitState.isRunning = true ∧ postInitState.encoderSurface = false) ∧
    (OnBufferAvailable postInitState ⟨true, some sampleBuffer, -1⟩ true =
        (postInitState, []) ∧
     postInitState.isRunning = true ∧
     postInitState.encoderSurface = false ∧
     postInitState.cameraConsumerSurface = true) :=
  ⟨⟨by decide, by decide⟩,
   c10_notification_before_bind postInitState ⟨true, some sampleBuffer, -1⟩
     true (by decide) (by decide)⟩

end SurfaceBufferRelay
